import Mathlib

/-
  Verification development for the music-emotion analysis pipeline
  (source: music.py).

  The program elicits GEMS emotion predictions for audio clips from a
  remote model, compares them with ground-truth listener statistics, and
  aggregates per-emotion absolute differences into two tables.

  Embedding conventions:
  * Python floats are modelled as rationals (ℚ).
  * Python dicts are modelled as association lists `List (String × _)`;
    dict insertion order (which Python preserves) is the list order, and
    `dict.__contains__` / indexing is `List.lookup`.
  * I/O (HTTP request, file reads) is modelled by explicit parameters:
    the network response for a clip is an oracle `String → Except String _`.
-/

namespace MusicAnalysis

/-- Per-emotion statistics: a mean and a standard deviation
(one entry of a ground-truth or prediction bundle). -/
structure EmotionStats where
  mean : ℚ
  std : ℚ
  deriving DecidableEq, Repr

/-- Per-emotion absolute differences, the values of the dict built by
`calculate_differences` in music.py. -/
structure DiffStats where
  diff_mean : ℚ
  diff_std : ℚ
  deriving DecidableEq, Repr

/-- The fixed list of 9 GEMS emotion keys, in the order it is written in
`calculate_differences`, `create_overall_summary_table` and
`create_song_level_breakdown_table` (music.py lines 110-111, 133-134,
160-161; all three lists are identical). -/
def emotions : List String :=
  ["amazement", "solemnity", "tenderness", "nostalgia", "calmness",
   "power", "joyful_activation", "tension", "sadness"]

/-- A ground-truth or prediction bundle: dict from emotion name to stats. -/
abbrev StatsBundle := List (String × EmotionStats)

/-- The dict returned by `calculate_differences` for one clip. -/
abbrev DifferenceRecord := List (String × DiffStats)

/-- `all_differences` accumulated by `main`: dict from song id to its
difference record, in insertion order. -/
abbrev CorpusResults := List (String × DifferenceRecord)

/-- Loop body of `calculate_differences` (music.py lines 115-127): if the
emotion key is in both dicts take absolute differences of mean and std,
otherwise insert the maximum penalty (1.0, 0.5). -/
def diff_entry (truth pred : StatsBundle) (emotion : String) : DiffStats :=
  match truth.lookup emotion, pred.lookup emotion with
  | some t, some p => ⟨|t.mean - p.mean|, |t.std - p.std|⟩
  | _, _ => ⟨1, 1/2⟩

/-- music.py lines 108-129: the per-clip difference dict, one entry per
fixed emotion, in the fixed order. -/
def calculate_differences (truth pred : StatsBundle) : DifferenceRecord :=
  emotions.map fun emotion => (emotion, diff_entry truth pred emotion)

/-- Floor of a rational, computed directly (`Int.fdiv` rounds toward -∞). -/
def ratFloor (q : ℚ) : ℤ := q.num.fdiv q.den

/-- Round to nearest integer (half upward); models the rounding done by
Python float formatting, whose tie behaviour no claim depends on. -/
def ratRound (q : ℚ) : ℤ := ratFloor (q + 1/2)

/-- Left-pad a numeral with zeros to 4 digits. -/
def pad4 (m : Nat) : String :=
  let s := toString m
  String.mk (List.replicate (4 - s.length) (Char.ofNat 48)) ++ s

/-- Model of the Python format specifier `:.4f`: fixed-point rendering with
4 digits after the decimal point. -/
def format4 (q : ℚ) : String :=
  let n : ℤ := ratRound (q * 10000)
  (if n < 0 then "-" else "") ++
    toString (n.natAbs / 10000) ++ "." ++ pad4 (n.natAbs % 10000)

/-- music.py lines 140-144 (mean part): collect `diff_mean` of every
canonical emotion present in each song's record, songs in dict order. -/
def all_mean_diffs (all_differences : CorpusResults) : List ℚ :=
  all_differences.flatMap fun song_diffs =>
    emotions.filterMap fun emotion =>
      (song_diffs.2.lookup emotion).map DiffStats.diff_mean

/-- music.py lines 140-144 (std part): collect `diff_std` of every
canonical emotion present in each song's record, songs in dict order. -/
def all_std_diffs (all_differences : CorpusResults) : List ℚ :=
  all_differences.flatMap fun song_diffs =>
    emotions.filterMap fun emotion =>
      (song_diffs.2.lookup emotion).map DiffStats.diff_std

/-- music.py lines 147-148: `sum(l) / len(l) if l else 0`. -/
def list_avg (l : List ℚ) : ℚ :=
  if l.isEmpty then 0 else l.sum / l.length

/-- `avg_mean_diff` of music.py line 147. -/
def avg_mean_diff (all_differences : CorpusResults) : ℚ :=
  list_avg (all_mean_diffs all_differences)

/-- `avg_std_diff` of music.py line 148. -/
def avg_std_diff (all_differences : CorpusResults) : ℚ :=
  list_avg (all_std_diffs all_differences)

/-- The two-column overall summary DataFrame (music.py lines 151-156):
parallel Metric and Value columns. -/
structure SummaryTable where
  metric : List String
  value : List String
  deriving DecidableEq, Repr

/-- Column names of the overall summary table (keys of `summary_data`). -/
def summary_column_names : List String := ["Metric", "Value"]

/-- music.py lines 131-156: overall summary table with both averages
formatted to 4 decimal places. -/
def create_overall_summary_table (all_differences : CorpusResults) : SummaryTable :=
  { metric := ["Average Difference in Mean", "Average Difference in Std"],
    value := [format4 (avg_mean_diff all_differences),
              format4 (avg_std_diff all_differences)] }

/-- One row of the song-level breakdown DataFrame: the `song_id` and
`metric` columns plus one cell per emotion column. -/
structure BreakdownRow where
  song_id : String
  metric : String
  cells : List (String × String)
  deriving DecidableEq, Repr

/-- music.py lines 168-172 and 177-181: one cell, formatted to 4 decimal
places, or `"N/A"` when the emotion is absent from the record; `f` selects
`diff_mean` or `diff_std`. -/
def cell_value (song_diffs : DifferenceRecord) (f : DiffStats → ℚ)
    (emotion : String) : String :=
  match song_diffs.lookup emotion with
  | some d => format4 (f d)
  | none => "N/A"

/-- One row's worth of emotion cells, in the fixed emotion order. -/
def breakdown_cells (song_diffs : DifferenceRecord) (f : DiffStats → ℚ) :
    List (String × String) :=
  emotions.map fun emotion => (emotion, cell_value song_diffs f emotion)

/-- music.py lines 158-184: for each song, in dict order, a `diff_mean`
row followed by a `diff_std` row. -/
def create_song_level_breakdown_table (all_differences : CorpusResults) :
    List BreakdownRow :=
  all_differences.flatMap fun p =>
    [{ song_id := p.1, metric := "diff_mean",
       cells := breakdown_cells p.2 DiffStats.diff_mean },
     { song_id := p.1, metric := "diff_std",
       cells := breakdown_cells p.2 DiffStats.diff_std }]

/-! ## JSON values and parsing

Models Python's `json.loads` (an external library the extractor in
`analyze_audio` relies on): a standard JSON grammar over objects, arrays,
strings, numbers (as exact rationals), booleans and null, rejecting
trailing garbage. Python additionally accepts `NaN`/`Infinity` literals;
no behaviour examined here involves them. -/

/-- A parsed JSON value (numbers modelled as exact rationals). -/
inductive Json where
  | null
  | bool (b : Bool)
  | num (q : ℚ)
  | str (s : String)
  | arr (elems : List Json)
  | obj (members : List (String × Json))

/-- The character `"` (written by code to stay clear of string escapes). -/
def quoteChar : Char := Char.ofNat 34

/-- The backslash character. -/
def backslashChar : Char := Char.ofNat 92

/-- The left brace character. -/
def lbraceChar : Char := Char.ofNat 123

/-- The right brace character. -/
def rbraceChar : Char := Char.ofNat 125

/-- The left square bracket character. -/
def lbrackChar : Char := Char.ofNat 91

/-- The right square bracket character. -/
def rbrackChar : Char := Char.ofNat 93

/-- JSON whitespace. -/
def isJsonWs (c : Char) : Bool :=
  c == ' ' || c == '\t' || c == '\n' || c == '\r'

/-- Drop leading JSON whitespace. -/
def skipWs : List Char → List Char
  | [] => []
  | c :: cs => if isJsonWs c then skipWs cs else c :: cs

/-- Numeric value of a hexadecimal digit. -/
def hexVal (c : Char) : Option Nat :=
  if c.isDigit then some (c.toNat - 48)
  else if 97 ≤ c.toNat && c.toNat ≤ 102 then some (c.toNat - 87)
  else if 65 ≤ c.toNat && c.toNat ≤ 70 then some (c.toNat - 55)
  else none

/-- Value of a decimal digit run. -/
def digitsVal (ds : List Char) : Nat :=
  ds.foldl (fun a c => a * 10 + (c.toNat - 48)) 0

/-- Parse the body of a JSON string (the opening quote already consumed),
returning the decoded characters and the remaining input. Fuel bounds the
recursion; callers pass at least the input length plus one. -/
def parseStringChars : Nat → List Char → Option (List Char × List Char)
  | 0, _ => none
  | _, [] => none
  | fuel + 1, c :: t =>
    if c == quoteChar then some ([], t)
    else if c == backslashChar then
      match t with
      | [] => none
      | e :: t2 =>
        let dec : Option (Char × List Char) :=
          if e == quoteChar then some (quoteChar, t2)
          else if e == backslashChar then some (backslashChar, t2)
          else if e == '/' then some ('/', t2)
          else if e == 'b' then some (Char.ofNat 8, t2)
          else if e == 'f' then some (Char.ofNat 12, t2)
          else if e == 'n' then some ('\n', t2)
          else if e == 'r' then some ('\r', t2)
          else if e == 't' then some ('\t', t2)
          else if e == 'u' then
            match t2 with
            | a :: b :: c2 :: d :: t3 =>
              match hexVal a, hexVal b, hexVal c2, hexVal d with
              | some ha, some hb, some hc, some hd =>
                  some (Char.ofNat (((ha * 16 + hb) * 16 + hc) * 16 + hd), t3)
              | _, _, _, _ => none
            | _ => none
          else none
        match dec with
        | some (ch, t3) =>
          match parseStringChars fuel t3 with
          | some (s, r) => some (ch :: s, r)
          | none => none
        | none => none
    else
      match parseStringChars fuel t with
      | some (s, r) => some (c :: s, r)
      | none => none

/-- Parse an optional JSON exponent part, returning the signed exponent. -/
def parseExpPart (cs : List Char) : Option (ℤ × List Char) :=
  match cs with
  | [] => some (0, [])
  | c :: t =>
    if c == 'e' || c == 'E' then
      let (esign, t1) : ℤ × List Char :=
        match t with
        | c2 :: t2 => if c2 == '+' then (1, t2) else if c2 == '-' then (-1, t2) else (1, t)
        | [] => (1, t)
      let (eds, t3) := t1.span Char.isDigit
      if eds.isEmpty then none else some (esign * (digitsVal eds : ℤ), t3)
    else some (0, cs)

/-- Assemble a rational from sign, integer digits, fraction digits and
exponent. -/
def numFromParts (neg : Bool) (intDs fracDs : List Char) (e : ℤ) : ℚ :=
  let mant : ℚ := (digitsVal (intDs ++ fracDs) : ℚ) / (10 : ℚ) ^ fracDs.length
  let signed := if neg then -mant else mant
  signed * (10 : ℚ) ^ e

/-- Parse a JSON number (grammar `-? int frac? exp?`, leading zeros
rejected as `json.loads` does). -/
def parseNumber (cs : List Char) : Option (ℚ × List Char) :=
  let (neg, cs1) :=
    match cs with
    | c :: t => if c == '-' then (true, t) else (false, cs)
    | [] => (false, cs)
  let (intDs, cs2) := cs1.span Char.isDigit
  if intDs.isEmpty then none
  else if intDs.length > 1 && intDs.headD '1' == '0' then none
  else
    let contFrac : Option (List Char × List Char) :=
      match cs2 with
      | c :: t =>
        if c == '.' then
          let (fracDs, cs3) := t.span Char.isDigit
          if fracDs.isEmpty then none else some (fracDs, cs3)
        else some ([], cs2)
      | [] => some ([], cs2)
    match contFrac with
    | none => none
    | some (fracDs, cs3) =>
      match parseExpPart cs3 with
      | none => none
      | some (e, cs4) => some (numFromParts neg intDs fracDs e, cs4)

/-- Match a literal token. -/
def stripToken (tok cs : List Char) : Option (List Char) :=
  if tok.isPrefixOf cs then some (cs.drop tok.length) else none

mutual

/-- Parse one JSON value at the head of the input (leading whitespace
allowed), returning it and the rest of the input. -/
def parseValue : Nat → List Char → Option (Json × List Char)
  | 0, _ => none
  | fuel + 1, cs =>
    match skipWs cs with
    | [] => none
    | c :: t =>
      if c == lbraceChar then
        match skipWs t with
        | c2 :: t2 =>
          if c2 == rbraceChar then some (.obj [], t2)
          else
            match parseMembers fuel (skipWs t) with
            | some (ms, r) => some (.obj ms, r)
            | none => none
        | [] => none
      else if c == lbrackChar then
        match skipWs t with
        | c2 :: t2 =>
          if c2 == rbrackChar then some (.arr [], t2)
          else
            match parseItems fuel (skipWs t) with
            | some (xs, r) => some (.arr xs, r)
            | none => none
        | [] => none
      else if c == quoteChar then
        match parseStringChars (t.length + 1) t with
        | some (s, r) => some (.str (String.mk s), r)
        | none => none
      else if c == 't' then
        match stripToken "rue".data t with
        | some r => some (.bool true, r)
        | none => none
      else if c == 'f' then
        match stripToken "alse".data t with
        | some r => some (.bool false, r)
        | none => none
      else if c == 'n' then
        match stripToken "ull".data t with
        | some r => some (.null, r)
        | none => none
      else
        match parseNumber (c :: t) with
        | some (q, r) => some (.num q, r)
        | none => none

/-- Parse the members of a JSON object, positioned at the first key
(whitespace already skipped); consumes the closing brace. -/
def parseMembers : Nat → List Char → Option (List (String × Json) × List Char)
  | 0, _ => none
  | fuel + 1, cs =>
    match cs with
    | [] => none
    | c :: t =>
      if c == quoteChar then
        match parseStringChars (t.length + 1) t with
        | some (ks, r1) =>
          match skipWs r1 with
          | c2 :: r2 =>
            if c2 == ':' then
              match parseValue fuel r2 with
              | some (v, r3) =>
                match skipWs r3 with
                | c3 :: r4 =>
                  if c3 == ',' then
                    match parseMembers fuel (skipWs r4) with
                    | some (ms, r5) => some ((String.mk ks, v) :: ms, r5)
                    | none => none
                  else if c3 == rbraceChar then some ([(String.mk ks, v)], r4)
                  else none
                | [] => none
              | none => none
            else none
          | [] => none
        | none => none
      else none

/-- Parse the items of a JSON array, positioned at the first item
(whitespace already skipped); consumes the closing bracket. -/
def parseItems : Nat → List Char → Option (List Json × List Char)
  | 0, _ => none
  | fuel + 1, cs =>
    match parseValue fuel cs with
    | some (v, r1) =>
      match skipWs r1 with
      | c :: r2 =>
        if c == ',' then
          match parseItems fuel (skipWs r2) with
          | some (xs, r3) => some (v :: xs, r3)
          | none => none
        else if c == rbrackChar then some ([v], r2)
        else none
      | [] => none
    | none => none

end

/-- Model of `json.loads`: parse one JSON document, rejecting leftover
non-whitespace input (the `Extra data` error). `none` models a raised
`JSONDecodeError`. -/
def Json.parse (s : String) : Option Json :=
  match parseValue (s.length + 1) s.data with
  | some (j, rest) => if (skipWs rest).isEmpty then some j else none
  | none => none

/-- music.py line 91: model of `re.search(r'\x7b.*\x7d', content, re.DOTALL)`.
With `re.DOTALL` the greedy pattern matches from the first left brace to the
last right brace, provided the first left brace comes before the last right
brace; otherwise there is no match. -/
def brace_substring (content : String) : Option String :=
  let cs := content.data
  match cs.findIdx? (· == lbraceChar), (cs.reverse.findIdx? (· == rbraceChar)) with
  | some i, some rj =>
    let j := cs.length - 1 - rj
    if i < j then some (String.mk ((cs.drop i).take (j + 1 - i))) else none
  | _, _ => none

/-- music.py lines 87-92: the response extractor. Try a direct parse of the
content; on failure search for the brace-delimited substring. When the
regex finds no match the Python returns `\x7b\x7d` (an empty dict); when it
finds one, `json.loads` is applied to it with no surrounding handler, so a
second parse failure raises (modelled as `.error`). -/
def extract (content : String) : Except String Json :=
  match Json.parse content with
  | some j => .ok j
  | none =>
    match brace_substring content with
    | none => .ok (Json.obj [])
    | some s =>
      match Json.parse s with
      | some j => .ok j
      | none => .error "JSONDecodeError"

/-! ## Prompt builder

`get_gems_prompt` (music.py lines 13-54) is one f-string with a single
interpolation point, the listener count. It is embedded compositionally:
the nine emotion-definition lines and the nine schema lines are built from
the same data that appears literally in the source, and the surrounding
text is kept verbatim. The result is the exact source string. As a Lean
function it is pure, so determinism and absence of side effects hold by
construction. -/

/-- The 9 emotion names with the parenthetical definitions listed in the
prompt (music.py lines 18-26). -/
def gems_emotion_defs : List (String × String) :=
  [("amazement", "wonder, awe, happiness"),
   ("solemnity", "transcendence, inspiration, thrills"),
   ("tenderness", "sensuality, affect, feeling of love"),
   ("nostalgia", "dreamy, melancholic, sentimental"),
   ("calmness", "relaxation, serenity, meditative"),
   ("power", "strong, heroic, triumphant, energetic"),
   ("joyful_activation", "bouncy, animated, like dancing"),
   ("tension", "nervous, impatient, irritated"),
   ("sadness", "depressed, sorrowful")]

/-- One emotion-definition line of the prompt, without its newline. -/
def gems_emotion_line (p : String × String) : String :=
  "- " ++ p.1 ++ " (" ++ p.2 ++ ")"

/-- The emotion-definition lines, each followed by a newline. -/
def gems_emotion_lines : List (String × String) → String
  | [] => ""
  | p :: rest => gems_emotion_line p ++ "\n" ++ gems_emotion_lines rest

/-- Prompt text before the emotion-definition lines. -/
def gems_intro : String :=
  "You are analyzing a music audio clip.\nThis audio has been listened to and rated by N people.\nEach person indicated whether they strongly felt each of the following emotions while listening.\nThe emotions are based on the Geneva Emotional Music Scales (GEMS):\n"

/-- Prompt text between the emotion-definition lines and the interpolated
listener count. -/
def gems_mid : String :=
  "Each listener gives a binary response (0 or 1) for each emotion.\nTask:\nAssume N = "

/-- Prompt text between the interpolated listener count and the schema
lines. -/
def gems_after_count : String :=
  " listeners.\nBased only on the audio content:\nFor each emotion, estimate:\n1. The average rating (mean, between 0 and 1)\n2. The standard deviation of the ratings (between 0 and 0.5)\nOutput requirements:\n- Return JSON only\n- Use exactly the emotion keys listed above\n- Each emotion must contain:\n  - \"mean\": float\n  - \"std\": float\n- Do NOT include explanations, comments, or extra text\n- Do NOT add or remove emotions\n- Do NOT round excessively (use up to 4 decimal places)\nOutput JSON schema:\n\x7b\n"

/-- One line of the output-schema example (music.py lines 45-53): the
quoted emotion key with its example `mean`/`std` object. -/
def gems_schema_line (e : String) : String :=
  "  \"" ++ e ++ "\": \x7b \"mean\": 0.0, \"std\": 0.0 \x7d"

/-- The schema lines joined by commas (every line but the last ends with
a comma in the source literal). -/
def gems_schema_body : List String → String
  | [] => ""
  | [e] => gems_schema_line e
  | e :: rest => gems_schema_line e ++ ",\n" ++ gems_schema_body rest

/-- The prompt up to (and excluding) the interpolated listener count. -/
def gems_part1 : String :=
  gems_intro ++ gems_emotion_lines gems_emotion_defs ++ gems_mid

/-- The prompt after the interpolated listener count. -/
def gems_part2 : String :=
  gems_after_count ++ gems_schema_body emotions ++ "\n\x7d"

/-- music.py lines 13-54: the full prompt for a given listener count. -/
def get_gems_prompt (n_listeners : Nat) : String :=
  gems_part1 ++ toString n_listeners ++ gems_part2

/-- `pat` occurs as a contiguous substring of `s`. -/
def occursIn (pat s : String) : Prop :=
  ∃ a b, s = a ++ pat ++ b

/-! ## Orchestrator

`main` (music.py lines 186-235). File-system and network effects are
explicit parameters: `audio_files` is the list of clip stems produced by
the glob, in glob order; `response` gives, for each clip, the outcome of
the HTTP request of `analyze_audio` (lines 61-85) together with the
response extraction, as a typed bundle (`.error` models any raised
exception on that path). The `OPENROUTER_API_KEY` check (lines 57-59)
happens before any of that, so it is modelled separately in
`analyze_audio` below. The events record what the loop prints. -/

/-- The run environment: credential, the two lookup tables, the clip
stems, and the per-clip inference outcome. -/
structure Env where
  api_key : Option String
  truth_data : List (String × StatsBundle)
  listeners : List (String × Nat)
  audio_files : List String
  response : String → Except String StatsBundle

/-- Observable per-clip events of the loop (its `print` calls). -/
inductive Event where
  | skipped (song_id : String)
  | processing (song_id : String)
  | error_logged (song_id : String) (msg : String)
  deriving DecidableEq, Repr

/-- Whether an event is the `Processing ...` message. -/
def Event.is_processing : Event → Bool
  | .processing _ => true
  | _ => false

/-- music.py lines 56-92 at the loop level: the credential check of lines
57-59 runs first and raises `RuntimeError("OPENROUTER_API_KEY not set")`
if the variable is absent; otherwise the request/extraction outcome is the
environment's response for the clip. -/
def analyze_audio (api_key : Option String) (response : Except String StatsBundle) :
    Except String StatsBundle :=
  match api_key with
  | none => .error "OPENROUTER_API_KEY not set"
  | some _ => response

/-- music.py lines 199-221, one iteration: skip (log only) when the clip
lacks ground truth or a listener count; otherwise print `Processing`,
analyze, and either record the difference dict or log the caught
exception. Returns the updated accumulator and the events emitted. -/
def process_clip (env : Env) (all_differences : CorpusResults) (song_id : String) :
    CorpusResults × List Event :=
  match env.truth_data.lookup song_id, env.listeners.lookup song_id with
  | some truth, some _n =>
    match analyze_audio env.api_key (env.response song_id) with
    | .ok pred =>
        (all_differences ++ [(song_id, calculate_differences truth pred)],
         [.processing song_id])
    | .error e =>
        (all_differences, [.processing song_id, .error_logged song_id e])
  | _, _ => (all_differences, [.skipped song_id])

/-- The clip loop of `main` (music.py lines 198-221), over the remaining
clip stems, threading the accumulator. -/
def run_clips (env : Env) : List String → CorpusResults → CorpusResults × List Event
  | [], acc => (acc, [])
  | f :: rest, acc =>
    let step := process_clip env acc f
    let tail := run_clips env rest step.1
    (tail.1, step.2 ++ tail.2)

/-- The whole clip loop, started on the glob results with an empty dict. -/
def main_run (env : Env) : CorpusResults × List Event :=
  run_clips env env.audio_files []

/-- music.py lines 223-235: the tables written at the end of `main`, or
`none` (the `No results to save` branch, with no sink writes) when the
accumulated dict is empty. -/
def main_output (env : Env) : Option (SummaryTable × List BreakdownRow) :=
  let corpus := (main_run env).1
  if corpus.isEmpty then none
  else some (create_overall_summary_table corpus,
             create_song_level_breakdown_table corpus)

/-! ## Spec-side definitions and concrete instances

The `flattened_*` and `arith_mean` definitions follow the spec's wording
for the overall summary, to be compared with the code-side collection.
The concrete bundles and environments below instantiate the theorems. -/

/-- Following the spec's words for the overall summary: the flattened
sequence of every (song, emotion) pair's diff_mean over all of
CorpusResults, in order. -/
def flattened_mean_diffs (ad : CorpusResults) : List ℚ :=
  ad.flatMap fun song_diffs => song_diffs.2.map fun kv => kv.2.diff_mean

/-- Following the spec's words for the overall summary: the flattened
sequence of every (song, emotion) pair's diff_std over all of
CorpusResults, in order. -/
def flattened_std_diffs (ad : CorpusResults) : List ℚ :=
  ad.flatMap fun song_diffs => song_diffs.2.map fun kv => kv.2.diff_std

/-- Following the spec's words: arithmetic mean of a sequence, zero for
the empty sequence. -/
def arith_mean (l : List ℚ) : ℚ :=
  if l = [] then 0 else l.sum / l.length

/-- Ground-truth bundle used to instantiate the theorems: a single
in-range entry for amazement. -/
def truthW : StatsBundle := [("amazement", ⟨4/5, 1/10⟩)]

/-- Prediction bundle used to instantiate the theorems: a single in-range
entry for amazement, differing from `truthW` in the mean. -/
def predW : StatsBundle := [("amazement", ⟨3/5, 1/10⟩)]

/-- Out-of-range ground truth used to refute the unconditional bound of
C3 (nothing in the code validates the parsed statistics). -/
def truthOut : StatsBundle := [("amazement", ⟨2, 0⟩)]

/-- Prediction paired with `truthOut`. -/
def predOut : StatsBundle := [("amazement", ⟨0, 0⟩)]

/-- A one-clip corpus built from the concrete bundles, used to
instantiate the aggregation theorems. -/
def adW : CorpusResults := [("song_1", calculate_differences truthW predW)]

/-- The constant successful response used by the concrete environments. -/
def respW : String → Except String StatsBundle := fun _ => .ok predW

/-- Environment whose first clip has no ground-truth entry. -/
def skipEnv : Env :=
  { api_key := some "k",
    truth_data := [("song_1", truthW)],
    listeners := [("song_1", 17)],
    audio_files := ["song_x", "song_1"],
    response := respW }

/-- Environment with the credential absent and two eligible clips. -/
def noKeyEnv : Env :=
  { api_key := none,
    truth_data := [("song_1", truthW), ("song_2", truthW)],
    listeners := [("song_1", 17), ("song_2", 18)],
    audio_files := ["song_1", "song_2"],
    response := respW }

/-! ## Helper lemmas -/

/-- The canonical emotion list has no duplicates. -/
theorem emotions_nodup : emotions.Nodup := by decide

/-- A successful association-list lookup exhibits a member of the list. -/
theorem mem_of_lookup_some {α β : Type} [BEq α] [LawfulBEq α]
    {l : List (α × β)} {k : α} {b : β}
    (h : l.lookup k = some b) : (k, b) ∈ l := by
  induction l with
  | nil => simp at h
  | cons p t ih =>
    obtain ⟨k', b'⟩ := p
    rw [List.lookup_cons] at h
    by_cases hk : k = k'
    · subst hk
      simp only [BEq.refl] at h
      cases h
      exact List.mem_cons_self _ _
    · rw [beq_false_of_ne hk] at h
      exact List.mem_cons_of_mem _ (ih h)

/-- Looking up any listed emotion in the record built by
`calculate_differences` yields the corresponding `diff_entry`. -/
theorem calculate_differences_lookup (truth pred : StatsBundle) {e : String}
    (he : e ∈ emotions) :
    (calculate_differences truth pred).lookup e = some (diff_entry truth pred e) :=
  List.lookup_graph _ he

/-- Looking up any listed emotion among the cells built by
`breakdown_cells` yields the corresponding `cell_value`. -/
theorem breakdown_cells_lookup (song_diffs : DifferenceRecord)
    (f : DiffStats → ℚ) {e : String} (he : e ∈ emotions) :
    (breakdown_cells song_diffs f).lookup e = some (cell_value song_diffs f e) :=
  List.lookup_graph _ he

/-- Filtering the canonical lookups over a record whose keys are exactly
`ks` (without duplicates) traverses the record's own entries in order. -/
theorem filterMap_lookup_of_keys {β γ : Type} (f : β → γ) :
    ∀ (rec : List (String × β)) (ks : List String),
      rec.map Prod.fst = ks → ks.Nodup →
      (ks.filterMap fun e => (rec.lookup e).map f) = rec.map fun kv => f kv.2 := by
  intro rec
  induction rec with
  | nil =>
    intro ks h _
    subst h
    simp
  | cons kv t ih =>
    intro ks h hnd
    obtain ⟨k, v⟩ := kv
    subst h
    simp only [List.map_cons, List.nodup_cons] at hnd ⊢
    rw [List.filterMap_cons]
    have hk : ((k, v) :: t).lookup k = some v := by
      rw [List.lookup_cons, BEq.refl]
    rw [hk]
    have hcong :
        ((t.map Prod.fst).filterMap fun e => ((((k, v) :: t).lookup e).map f)) =
        ((t.map Prod.fst).filterMap fun e => ((t.lookup e).map f)) := by
      apply List.filterMap_congr
      intro e hel
      have hne : e ≠ k := fun hek => hnd.1 (hek ▸ hel)
      rw [List.lookup_cons, beq_false_of_ne hne]
    rw [hcong, ih (t.map Prod.fst) rfl hnd.2]
    simp

/-- Formatted numbers always contain a decimal point, so they are never
the sentinel string. -/
theorem format4_ne_NA (q : ℚ) : format4 q ≠ "N/A" := by
  intro h
  have hdot : '.' ∈ (format4 q).data := by
    show '.' ∈ ((((if _ then "-" else "") ++ _) ++ ".") ++ _).data
    simp [String.data_append]
  rw [h] at hdot
  simp at hdot

/-! ## Claim theorems -/

/-- C4: for every pair of bundles and every fixed emotion key, a key
present in both bundles yields the absolute differences of mean and std,
and a key missing from either bundle yields exactly the penalty entry
(diff_mean 1.0, diff_std 0.5). -/
theorem calculate_differences_entry_spec (truth pred : StatsBundle) (e : String)
    (he : e ∈ emotions) :
    (∀ t p, truth.lookup e = some t → pred.lookup e = some p →
      (calculate_differences truth pred).lookup e =
        some ⟨|t.mean - p.mean|, |t.std - p.std|⟩) ∧
    (truth.lookup e = none ∨ pred.lookup e = none →
      (calculate_differences truth pred).lookup e = some ⟨1, 1/2⟩) := by
  constructor
  · intro t p hT hP
    rw [calculate_differences_lookup truth pred he]
    simp [diff_entry, hT, hP]
  · intro h
    rw [calculate_differences_lookup truth pred he]
    rcases h with h | h
    · cases hP : pred.lookup e <;> simp [diff_entry, h, hP]
    · cases hT : truth.lookup e <;> simp [diff_entry, h, hT]

/-- C4 witness: on concrete bundles, the present key gives the absolute
differences and a missing key gives the penalty entry. -/
theorem calculate_differences_entry_spec_witness :
    (calculate_differences truthW predW).lookup "amazement" =
      some ⟨|(4:ℚ)/5 - 3/5|, |(1:ℚ)/10 - 1/10|⟩ ∧
    (calculate_differences truthW predW).lookup "solemnity" = some ⟨1, 1/2⟩ :=
  ⟨(calculate_differences_entry_spec truthW predW "amazement" (by decide)).1
      ⟨4/5, 1/10⟩ ⟨3/5, 1/10⟩ rfl rfl,
   (calculate_differences_entry_spec truthW predW "solemnity" (by decide)).2
      (Or.inl rfl)⟩

/-- C10: whatever the input bundles, the record built by
`calculate_differences` has exactly the 9 canonical keys (never fewer,
never extra), every canonical lookup in it succeeds, and consequently the
`"N/A"` branch of the breakdown table never fires on records it builds. -/
theorem calculate_differences_total_keys (truth pred : StatsBundle) :
    (calculate_differences truth pred).map Prod.fst = emotions ∧
    (∀ e ∈ emotions, ((calculate_differences truth pred).lookup e).isSome) ∧
    (∀ f : DiffStats → ℚ,
      "N/A" ∉ (breakdown_cells (calculate_differences truth pred) f).map Prod.snd) := by
  refine ⟨by rw [calculate_differences, List.map_map]; simp [Function.comp_def], ?_, ?_⟩
  · intro e he
    rw [calculate_differences_lookup truth pred he]
    rfl
  · intro f hmem
    rw [breakdown_cells, List.map_map] at hmem
    obtain ⟨e, he, hcell⟩ := List.mem_map.1 hmem
    have : cell_value (calculate_differences truth pred) f e = "N/A" := hcell
    rw [cell_value, calculate_differences_lookup truth pred he] at this
    exact format4_ne_NA _ this

/-- C10 witness: concrete record with exactly the canonical keys and a
successful canonical lookup. -/
theorem calculate_differences_total_keys_witness :
    (calculate_differences truthW predW).map Prod.fst = emotions ∧
    ((calculate_differences truthW predW).lookup "tension").isSome :=
  ⟨(calculate_differences_total_keys truthW predW).1,
   (calculate_differences_total_keys truthW predW).2.1 "tension" (by decide)⟩

/-- C3 counterexample: with an out-of-range (unvalidated) input statistic
the produced record carries diff_mean = 2, which exceeds the claimed
bound 1.0, so the invariant does not hold unconditionally. -/
theorem diff_bound_violated_cex :
    (calculate_differences truthOut predOut).lookup "amazement" = some ⟨2, 0⟩ ∧
    ¬ ((2 : ℚ) ≤ 1) := by
  constructor
  · rw [calculate_differences_lookup truthOut predOut (by decide)]
    show some (⟨|(2:ℚ) - 0|, |(0:ℚ) - 0|⟩ : DiffStats) = some ⟨2, 0⟩
    norm_num
  · norm_num

/-- C3 (amended): whenever every statistic present in either bundle is in
range (mean in [0,1], std in [0,0.5]) — which is the spec's own data-model
assumption — every entry of the produced record satisfies
diff_mean ∈ [0,1] and diff_std ∈ [0,0.5]. -/
theorem calculate_differences_bounded (truth pred : StatsBundle)
    (ht : ∀ kv ∈ truth,
      0 ≤ kv.2.mean ∧ kv.2.mean ≤ 1 ∧ 0 ≤ kv.2.std ∧ kv.2.std ≤ 1/2)
    (hp : ∀ kv ∈ pred,
      0 ≤ kv.2.mean ∧ kv.2.mean ≤ 1 ∧ 0 ≤ kv.2.std ∧ kv.2.std ≤ 1/2) :
    ∀ kv ∈ calculate_differences truth pred,
      0 ≤ kv.2.diff_mean ∧ kv.2.diff_mean ≤ 1 ∧
      0 ≤ kv.2.diff_std ∧ kv.2.diff_std ≤ 1/2 := by
  intro kv hkv
  rw [calculate_differences] at hkv
  obtain ⟨e, he, rfl⟩ := List.mem_map.1 hkv
  cases hT : truth.lookup e with
  | none =>
    cases hP : pred.lookup e <;> simp [diff_entry, hT, hP]
  | some t =>
    cases hP : pred.lookup e with
    | none => simp [diff_entry, hT, hP]
    | some p =>
      have h1 := ht (e, t) (mem_of_lookup_some hT)
      have h2 := hp (e, p) (mem_of_lookup_some hP)
      simp only [diff_entry, hT, hP]
      refine ⟨abs_nonneg _, ?_, abs_nonneg _, ?_⟩
      · rw [abs_sub_le_iff]
        constructor <;> linarith [h1.1, h1.2.1, h2.1, h2.2.1]
      · rw [abs_sub_le_iff]
        constructor <;> linarith [h1.2.2.1, h1.2.2.2, h2.2.2.1, h2.2.2.2]

/-- C3 witness: the amended bound instantiated on concrete in-range
bundles at the amazement entry. -/
theorem calculate_differences_bounded_witness :
    0 ≤ (diff_entry truthW predW "amazement").diff_mean ∧
    (diff_entry truthW predW "amazement").diff_mean ≤ 1 ∧
    0 ≤ (diff_entry truthW predW "amazement").diff_std ∧
    (diff_entry truthW predW "amazement").diff_std ≤ 1/2 :=
  calculate_differences_bounded truthW predW
    (by intro kv hkv; simp [truthW] at hkv; subst hkv; norm_num)
    (by intro kv hkv; simp [predW] at hkv; subst hkv; norm_num)
    ("amazement", diff_entry truthW predW "amazement")
    (List.mem_map.2 ⟨"amazement", by decide, rfl⟩)

/-- The code's guarded average coincides with the spec's arithmetic mean
convention. -/
theorem list_avg_eq_arith_mean (l : List ℚ) : list_avg l = arith_mean l := by
  cases l <;> simp [list_avg, arith_mean]

/-- On records whose keys are exactly the canonical emotions, the code's
mean-difference collection is the full flattened sequence. -/
theorem all_mean_diffs_eq_flattened (ad : CorpusResults)
    (h : ∀ p ∈ ad, p.2.map Prod.fst = emotions) :
    all_mean_diffs ad = flattened_mean_diffs ad := by
  induction ad with
  | nil => rfl
  | cons p t ih =>
    simp only [all_mean_diffs, flattened_mean_diffs, List.flatMap_cons] at ih ⊢
    rw [filterMap_lookup_of_keys DiffStats.diff_mean p.2 emotions
          (h p (List.mem_cons_self p t)) emotions_nodup,
        ih fun q hq => h q (List.mem_cons_of_mem _ hq)]

/-- On records whose keys are exactly the canonical emotions, the code's
std-difference collection is the full flattened sequence. -/
theorem all_std_diffs_eq_flattened (ad : CorpusResults)
    (h : ∀ p ∈ ad, p.2.map Prod.fst = emotions) :
    all_std_diffs ad = flattened_std_diffs ad := by
  induction ad with
  | nil => rfl
  | cons p t ih =>
    simp only [all_std_diffs, flattened_std_diffs, List.flatMap_cons] at ih ⊢
    rw [filterMap_lookup_of_keys DiffStats.diff_std p.2 emotions
          (h p (List.mem_cons_self p t)) emotions_nodup,
        ih fun q hq => h q (List.mem_cons_of_mem _ hq)]

/-- C5: over a corpus of records carrying the canonical keys (which is
what `calculate_differences` produces), the summary's two values are the
arithmetic means of the flattened diff_mean and diff_std sequences, the
table reports them formatted, and an empty corpus yields exactly zero for
both averages. -/
theorem overall_summary_avg_spec (ad : CorpusResults)
    (h : ∀ p ∈ ad, p.2.map Prod.fst = emotions) :
    avg_mean_diff ad = arith_mean (flattened_mean_diffs ad) ∧
    avg_std_diff ad = arith_mean (flattened_std_diffs ad) ∧
    (create_overall_summary_table ad).value =
      [format4 (arith_mean (flattened_mean_diffs ad)),
       format4 (arith_mean (flattened_std_diffs ad))] ∧
    (ad = [] → avg_mean_diff ad = 0 ∧ avg_std_diff ad = 0) := by
  have h1 : avg_mean_diff ad = arith_mean (flattened_mean_diffs ad) := by
    rw [avg_mean_diff, all_mean_diffs_eq_flattened ad h, list_avg_eq_arith_mean]
  have h2 : avg_std_diff ad = arith_mean (flattened_std_diffs ad) := by
    rw [avg_std_diff, all_std_diffs_eq_flattened ad h, list_avg_eq_arith_mean]
  refine ⟨h1, h2, ?_, ?_⟩
  · rw [create_overall_summary_table, h1, h2]
  · rintro rfl
    exact ⟨rfl, rfl⟩

/-- C5 witness: the summary equalities instantiated on a concrete
one-clip corpus. -/
theorem overall_summary_avg_spec_witness :
    avg_mean_diff adW = arith_mean (flattened_mean_diffs adW) ∧
    avg_std_diff adW = arith_mean (flattened_std_diffs adW) :=
  ⟨(overall_summary_avg_spec adW
      (by intro p hp; rw [List.mem_singleton.1 hp]; decide)).1,
   (overall_summary_avg_spec adW
      (by intro p hp; rw [List.mem_singleton.1 hp]; decide)).2.1⟩

/-- C6: the breakdown table has exactly two rows per clip (so 2 × the
corpus size in total, with 2 + 9 columns each: `song_id`, `metric` and one
cell per emotion); each clip contributes its `diff_mean`-tagged and
`diff_std`-tagged rows, and each emotion cell holds the 4-decimal
formatted value, or `"N/A"` when the emotion is absent from the clip's
record. -/
theorem breakdown_table_shape (ad : CorpusResults) :
    (create_song_level_breakdown_table ad).length = 2 * ad.length ∧
    (∀ r ∈ create_song_level_breakdown_table ad, 2 + r.cells.length = 2 + 9) ∧
    (∀ p ∈ ad,
      ({ song_id := p.1, metric := "diff_mean",
         cells := breakdown_cells p.2 DiffStats.diff_mean } : BreakdownRow) ∈
        create_song_level_breakdown_table ad ∧
      ({ song_id := p.1, metric := "diff_std",
         cells := breakdown_cells p.2 DiffStats.diff_std } : BreakdownRow) ∈
        create_song_level_breakdown_table ad) ∧
    (∀ p ∈ ad, ∀ e ∈ emotions,
      (breakdown_cells p.2 DiffStats.diff_mean).lookup e =
        some (match p.2.lookup e with
              | some d => format4 d.diff_mean
              | none => "N/A") ∧
      (breakdown_cells p.2 DiffStats.diff_std).lookup e =
        some (match p.2.lookup e with
              | some d => format4 d.diff_std
              | none => "N/A")) := by
  refine ⟨?_, ?_, ?_, ?_⟩
  · induction ad with
    | nil => rfl
    | cons p t ih =>
      simp only [create_song_level_breakdown_table, List.flatMap_cons,
        List.length_append, List.length_cons, List.length_nil, List.length_flatMap] at ih ⊢
      omega
  · intro r hr
    obtain ⟨p, _, hrows⟩ := List.mem_flatMap.1 hr
    rcases List.mem_cons.1 hrows with h1 | h2
    · rw [h1]  -- r is the diff_mean row
      simp [breakdown_cells, emotions]
    · rcases List.mem_cons.1 h2 with h1 | h3
      · rw [h1]
        simp [breakdown_cells, emotions]
      · exact absurd h3 (List.not_mem_nil r)
  · intro p hp
    constructor
    · exact List.mem_flatMap.2 ⟨p, hp, List.mem_cons_self _ _⟩
    · exact List.mem_flatMap.2 ⟨p, hp, List.mem_cons_of_mem _ (List.mem_cons_self _ _)⟩
  · intro p _ e he
    constructor
    · rw [breakdown_cells_lookup p.2 DiffStats.diff_mean he]
      rfl
    · rw [breakdown_cells_lookup p.2 DiffStats.diff_std he]
      rfl

/-- C6 witness: row count and a concrete formatted cell on the one-clip
corpus. -/
theorem breakdown_table_shape_witness :
    (create_song_level_breakdown_table adW).length = 2 * adW.length ∧
    (breakdown_cells (calculate_differences truthW predW) DiffStats.diff_mean).lookup
        "amazement" =
      some (match (calculate_differences truthW predW).lookup "amazement" with
            | some d => format4 d.diff_mean
            | none => "N/A") :=
  ⟨(breakdown_table_shape adW).1,
   ((breakdown_table_shape adW).2.2.2 ("song_1", calculate_differences truthW predW)
      (List.mem_singleton.2 rfl) "amazement" (by decide)).1⟩

/-- C7: breakdown rows appear in corpus (accumulation) order, two per
clip with the `diff_mean` row first; every row's emotion columns are in
the fixed canonical order; and the overall summary table has no emotion
columns at all (its columns are `Metric` and `Value`), so its emotion
ordering condition holds vacuously. -/
theorem table_ordering (ad : CorpusResults) :
    ((create_song_level_breakdown_table ad).map BreakdownRow.song_id =
      ad.flatMap fun p => [p.1, p.1]) ∧
    ((create_song_level_breakdown_table ad).map BreakdownRow.metric =
      ad.flatMap fun _ => ["diff_mean", "diff_std"]) ∧
    (∀ r ∈ create_song_level_breakdown_table ad, r.cells.map Prod.fst = emotions) ∧
    (∀ e ∈ emotions, e ∉ summary_column_names) := by
  refine ⟨?_, ?_, ?_, by decide⟩
  · rw [create_song_level_breakdown_table, List.map_flatMap]
    simp
  · rw [create_song_level_breakdown_table, List.map_flatMap]
    simp
  · intro r hr
    obtain ⟨p, _, hrows⟩ := List.mem_flatMap.1 hr
    rcases List.mem_cons.1 hrows with h1 | h2
    · rw [h1]
      simp [breakdown_cells, List.map_map, Function.comp_def]
    · rcases List.mem_cons.1 h2 with h1 | h3
      · rw [h1]
        simp [breakdown_cells, List.map_map, Function.comp_def]
      · exact absurd h3 (List.not_mem_nil r)

/-- C7 witness: ordering instantiated on the one-clip corpus, and the
summary table has no `amazement` column. -/
theorem table_ordering_witness :
    ((create_song_level_breakdown_table adW).map BreakdownRow.song_id =
      adW.flatMap fun p => [p.1, p.1]) ∧
    "amazement" ∉ summary_column_names :=
  ⟨(table_ordering adW).1, (table_ordering adW).2.2.2 "amazement" (by decide)⟩

/-- C8: when a clip lacks ground truth or a listener count, the loop
iteration only logs the skip: the accumulated results are exactly those of
the remaining clips (no inference is attempted and no record is added for
the skipped clip), and the event trace is the skip message followed by the
trace of the remaining clips. -/
theorem skip_clip_filters_only (env : Env) (f : String) (rest : List String)
    (acc : CorpusResults)
    (h : env.truth_data.lookup f = none ∨ env.listeners.lookup f = none) :
    (run_clips env (f :: rest) acc).1 = (run_clips env rest acc).1 ∧
    (run_clips env (f :: rest) acc).2 =
      Event.skipped f :: (run_clips env rest acc).2 := by
  have hstep : process_clip env acc f = (acc, [Event.skipped f]) := by
    rcases h with h | h
    · cases hl : env.listeners.lookup f <;> simp [process_clip, h, hl]
    · cases ht : env.truth_data.lookup f <;> simp [process_clip, h, ht]
  constructor <;> simp [run_clips, hstep]

/-- C8 witness: the skip step instantiated on a concrete environment
whose first clip lacks ground truth. -/
theorem skip_clip_filters_only_witness :
    (run_clips skipEnv ["song_x", "song_1"] []).1 =
      (run_clips skipEnv ["song_1"] []).1 ∧
    (run_clips skipEnv ["song_x", "song_1"] []).2 =
      Event.skipped "song_x" :: (run_clips skipEnv ["song_1"] []).2 :=
  skip_clip_filters_only skipEnv "song_x" ["song_1"] [] (Or.inl rfl)

/-- With the credential absent, the loop records nothing: the accumulator
passes through unchanged, and every clip that has both lookups logs the
configuration error. -/
theorem run_clips_no_key (env : Env) (hkey : env.api_key = none) :
    ∀ (files : List String) (acc : CorpusResults),
      (run_clips env files acc).1 = acc ∧
      (∀ f ∈ files,
        (env.truth_data.lookup f).isSome → (env.listeners.lookup f).isSome →
        Event.error_logged f "OPENROUTER_API_KEY not set" ∈
          (run_clips env files acc).2) := by
  intro files
  induction files with
  | nil => intro acc; simp [run_clips]
  | cons f rest ih =>
    intro acc
    cases ht : env.truth_data.lookup f with
    | none =>
      have hstep : process_clip env acc f = (acc, [Event.skipped f]) := by
        cases hl : env.listeners.lookup f <;> simp [process_clip, ht, hl]
      refine ⟨by simp [run_clips, hstep, (ih acc).1], ?_⟩
      intro g hg hgt hgl
      rcases List.mem_cons.1 hg with rfl | hg'
      · rw [ht] at hgt
        simp at hgt
      · have hmem := (ih acc).2 g hg' hgt hgl
        simp only [run_clips, hstep]
        exact List.mem_cons_of_mem _ hmem
    | some truth =>
      cases hl : env.listeners.lookup f with
      | none =>
        have hstep : process_clip env acc f = (acc, [Event.skipped f]) := by
          simp [process_clip, ht, hl]
        refine ⟨by simp [run_clips, hstep, (ih acc).1], ?_⟩
        intro g hg hgt hgl
        rcases List.mem_cons.1 hg with rfl | hg'
        · rw [hl] at hgl
          simp at hgl
        · have hmem := (ih acc).2 g hg' hgt hgl
          simp only [run_clips, hstep]
          exact List.mem_cons_of_mem _ hmem
      | some n =>
        have hstep : process_clip env acc f =
            (acc, [Event.processing f,
                   Event.error_logged f "OPENROUTER_API_KEY not set"]) := by
          simp [process_clip, ht, hl, analyze_audio, hkey]
        refine ⟨by simp [run_clips, hstep, (ih acc).1], ?_⟩
        intro g hg hgt hgl
        rcases List.mem_cons.1 hg with rfl | hg'
        · simp [run_clips, hstep]
        · have hmem := (ih acc).2 g hg' hgt hgl
          simp only [run_clips, hstep]
          exact List.mem_cons_of_mem _ (List.mem_cons_of_mem _ hmem)

/-- C1 (amended): when `OPENROUTER_API_KEY` is absent the run does
not abort — the `RuntimeError` raised by `analyze_audio` is caught by the
per-clip `except Exception` handler, so the loop logs the error for every
eligible clip and keeps going — but no record is ever accumulated, so the
run ends with empty results and writes no output at all (the claim's
"no partial output" part does hold). -/
theorem missing_api_key_no_output (env : Env) (hkey : env.api_key = none) :
    (main_run env).1 = [] ∧
    main_output env = none ∧
    (∀ f ∈ env.audio_files,
      (env.truth_data.lookup f).isSome → (env.listeners.lookup f).isSome →
      Event.error_logged f "OPENROUTER_API_KEY not set" ∈ (main_run env).2) := by
  have h := run_clips_no_key env hkey env.audio_files []
  refine ⟨h.1, ?_, h.2⟩
  have hempty : (main_run env).1 = [] := h.1
  rw [main_output, hempty]
  rfl

/-- C1 counterexample: with the credential absent and two eligible clips,
the second clip is still processed — the loop emits `Processing` and a
caught-error log for both clips instead of aborting after the first — so
the failure is not run-aborting as claimed. (The results are empty, so the
"no partial output" part of the claim is not contradicted.) -/
theorem run_continues_without_api_key_cex :
    (main_run noKeyEnv).2 =
      [Event.processing "song_1",
       Event.error_logged "song_1" "OPENROUTER_API_KEY not set",
       Event.processing "song_2",
       Event.error_logged "song_2" "OPENROUTER_API_KEY not set"] ∧
    (main_run noKeyEnv).2.countP Event.is_processing = 2 ∧
    (main_run noKeyEnv).1 = [] := by
  refine ⟨?_, ?_, ?_⟩ <;> rfl

/-- C1 witness: the amended statement instantiated on the concrete
credential-less environment. -/
theorem missing_api_key_no_output_witness :
    (main_run noKeyEnv).1 = [] ∧ main_output noKeyEnv = none ∧
    Event.error_logged "song_1" "OPENROUTER_API_KEY not set" ∈ (main_run noKeyEnv).2 :=
  ⟨(missing_api_key_no_output noKeyEnv rfl).1,
   (missing_api_key_no_output noKeyEnv rfl).2.1,
   (missing_api_key_no_output noKeyEnv rfl).2.2 "song_1" (by decide) (by decide)
     (by decide)⟩

/-- C2 (amended): the extractor's behaviour case by case. A direct parse
is returned as-is; with no brace-delimited substring the extractor returns
the empty bundle; a parsable brace-delimited substring is returned; but
when the substring exists and fails to parse, the second `json.loads` call
raises (there is no handler around it), so the extractor fails instead of
returning the empty bundle. -/
theorem extract_behaviour (content : String) :
    (∀ j, Json.parse content = some j → extract content = .ok j) ∧
    (Json.parse content = none → brace_substring content = none →
      extract content = .ok (Json.obj [])) ∧
    (∀ s j, Json.parse content = none → brace_substring content = some s →
      Json.parse s = some j → extract content = .ok j) ∧
    (∀ s, Json.parse content = none → brace_substring content = some s →
      Json.parse s = none → extract content = .error "JSONDecodeError") := by
  refine ⟨?_, ?_, ?_, ?_⟩
  · intro j hj
    simp [extract, hj]
  · intro h1 h2
    simp [extract, h1, h2]
  · intro s j h1 h2 h3
    simp [extract, h1, h2, h3]
  · intro s h1 h2 h3
    simp [extract, h1, h2, h3]

/-- C2 counterexample: on `x\x7ba\x7dy` the direct parse fails, the regex
finds the substring `\x7ba\x7d`, that substring also fails to parse, and
the extractor raises instead of returning the empty bundle claimed. -/
theorem extract_fallback_failure_cex :
    Json.parse "x\x7ba\x7dy" = none ∧
    brace_substring "x\x7ba\x7dy" = some "\x7ba\x7d" ∧
    Json.parse "\x7ba\x7d" = none ∧
    extract "x\x7ba\x7dy" = Except.error "JSONDecodeError" := by
  refine ⟨?_, ?_, ?_, ?_⟩ <;> rfl

/-- C2 witness: the no-substring case of the amended statement on a
concrete braceless response. -/
theorem extract_behaviour_witness :
    extract "hello" = Except.ok (Json.obj []) :=
  (extract_behaviour "hello").2.1 rfl rfl

/-! ## Prompt content (C9) -/

/-- Substring occurrence is preserved by appending on the right. -/
theorem occursIn_append_left {p a : String} (hp : occursIn p a) (b : String) :
    occursIn p (a ++ b) := by
  obtain ⟨x, y, hxy⟩ := hp
  exact ⟨x, y ++ b, by simp [hxy, String.append_assoc]⟩

/-- Substring occurrence is preserved by prepending on the left. -/
theorem occursIn_append_right {p b : String} (a : String) (hp : occursIn p b) :
    occursIn p (a ++ b) := by
  obtain ⟨x, y, hxy⟩ := hp
  exact ⟨a ++ x, y, by simp [hxy, String.append_assoc]⟩

/-- Substring occurrence is transitive. -/
theorem occursIn_trans {p m s : String} (hpm : occursIn p m)
    (hms : occursIn m s) : occursIn p s := by
  obtain ⟨x, y, hm⟩ := hpm
  obtain ⟨u, v, hs⟩ := hms
  refine ⟨u ++ x, y ++ v, ?_⟩
  rw [hs, hm]
  simp [String.append_assoc]

/-- Every emotion-definition line occurs in the rendered line block. -/
theorem occursIn_gems_emotion_lines :
    ∀ (l : List (String × String)), ∀ p ∈ l,
      occursIn (gems_emotion_line p) (gems_emotion_lines l) := by
  intro l
  induction l with
  | nil => intro p hp; exact absurd hp (List.not_mem_nil p)
  | cons q t ih =>
    intro p hp
    rcases List.mem_cons.1 hp with rfl | hp'
    · exact ⟨"", "\n" ++ gems_emotion_lines t,
        by simp [gems_emotion_lines, String.append_assoc]⟩
    · exact occursIn_append_right (gems_emotion_line q ++ "\n") (ih p hp')

/-- Every schema line occurs in the rendered schema block. -/
theorem occursIn_gems_schema_body :
    ∀ (l : List String), ∀ e ∈ l,
      occursIn (gems_schema_line e) (gems_schema_body l) := by
  intro l
  induction l with
  | nil => intro e he; exact absurd he (List.not_mem_nil e)
  | cons q t ih =>
    intro e he
    cases t with
    | nil =>
      rcases List.mem_cons.1 he with rfl | he'
      · exact ⟨"", "", by simp [gems_schema_body]⟩
      · exact absurd he' (List.not_mem_nil e)
    | cons r s =>
      rcases List.mem_cons.1 he with rfl | he'
      · exact ⟨"", ",\n" ++ gems_schema_body (r :: s),
          by simp [gems_schema_body, String.append_assoc]⟩
      · exact occursIn_append_right (gems_schema_line q ++ ",\n") (ih e he')

/-- Whatever occurs in `gems_part1` occurs in the full prompt. -/
theorem occursIn_prompt_of_part1 {p : String} (n : Nat)
    (h : occursIn p gems_part1) : occursIn p (get_gems_prompt n) :=
  occursIn_append_left (occursIn_append_left h _) _

/-- Whatever occurs in `gems_part2` occurs in the full prompt. -/
theorem occursIn_prompt_of_part2 {p : String} (n : Nat)
    (h : occursIn p gems_part2) : occursIn p (get_gems_prompt n) :=
  occursIn_append_right _ h

/-- C9: for every positive listener count, the prompt embeds the decimal
rendering of that count, contains each of the 9 emotion-definition lines
(name plus parenthetical definition), contains the schema-example line for
each of the 9 emotion keys (each with its `mean`/`std` fields), and hence
mentions every canonical emotion name. Determinism and freedom from side
effects hold because `get_gems_prompt` is a pure function of
`n_listeners`, exactly as in the source. -/
theorem gems_prompt_content (n : Nat) (_hn : 0 < n) :
    occursIn (toString n) (get_gems_prompt n) ∧
    (∀ p ∈ gems_emotion_defs, occursIn (gems_emotion_line p) (get_gems_prompt n)) ∧
    (∀ e ∈ emotions, occursIn (gems_schema_line e) (get_gems_prompt n)) ∧
    (∀ e ∈ emotions, occursIn e (get_gems_prompt n)) := by
  have hschema : ∀ e ∈ emotions, occursIn (gems_schema_line e) (get_gems_prompt n) := by
    intro e he
    apply occursIn_prompt_of_part2
    exact occursIn_append_left
      (occursIn_append_right _ (occursIn_gems_schema_body emotions e he)) _
  refine ⟨⟨gems_part1, gems_part2, rfl⟩, ?_, hschema, ?_⟩
  · intro p hp
    apply occursIn_prompt_of_part1
    exact occursIn_append_left
      (occursIn_append_right _ (occursIn_gems_emotion_lines gems_emotion_defs p hp)) _
  · intro e he
    refine occursIn_trans ?_ (hschema e he)
    exact ⟨"  \"", "\": \x7b \"mean\": 0.0, \"std\": 0.0 \x7d",
      by simp [gems_schema_line, String.append_assoc]⟩

/-- C9 witness: the count and an emotion name occur in the concrete
prompt for 17 listeners. -/
theorem gems_prompt_content_witness :
    occursIn (toString 17) (get_gems_prompt 17) ∧
    occursIn "amazement" (get_gems_prompt 17) :=
  ⟨(gems_prompt_content 17 (by decide)).1,
   (gems_prompt_content 17 (by decide)).2.2.2 "amazement" (by decide)⟩

end MusicAnalysis
